import Mathlib

/-!
Verification of the incremental search / autocomplete / focus-synchronization
engine of `terminal_velocity` (`urwid_ui.py`), as a shallow embedding.

Strings are modelled by Lean `String` (a list of characters, matching Python's
per-character semantics for the ASCII titles handled here); Python `str.lower`
is modelled by mapping `Char.toLower` over the characters.  Python's stable
`list.sort(key=..., reverse=True)` is modelled by a stable insertion sort with
the corresponding "greater-or-equal modification time" relation.  Code of the
repository that is not under `src/` (the `notebook` module) and the behavior of
the external `urwid` widgets are modelled from the specification, and are
marked as such.
-/

/-- A note, per the data model: identity is the absolute path, plus a display
title and a modification time used for ordering. -/
structure Note where
  title : String
  abspath : String
  mtime : Nat
deriving DecidableEq, Repr

/-- Python `str.lower`, character by character. -/
def lower (s : String) : String := ⟨s.data.map Char.toLower⟩

/-- Python `s.startswith(p)`. -/
def startswith (s p : String) : Bool := p.data.isPrefixOf s.data

/-- Python `p in s` (substring containment). -/
def strContains (s p : String) : Bool := s.data.tails.any (fun t => p.data.isPrefixOf t)

/-- Modelled from the spec: the note index adapter's `find(query)` operation
(`notebook.py` is not under `src/`): all notes whose title contains the query
as a case-insensitive substring, the empty query matching all, preserving the
listing order. -/
def searchNotes (notes : List Note) (query : String) : List Note :=
  notes.filter (fun n => strContains (lower n.title) (lower query))

/-- The ordering used for the display list: most recently modified first. -/
def mtimeGE (a b : Note) : Prop := b.mtime ≤ a.mtime

instance : DecidableRel mtimeGE := fun a b => Nat.decLe b.mtime a.mtime

instance : IsTotal Note mtimeGE := ⟨fun a b => le_total b.mtime a.mtime⟩

instance : IsTrans Note mtimeGE := ⟨fun _ _ _ hab hbc => le_trans hbc hab⟩

/-- Python `matching_notes.sort(key=lambda x: x.mtime, reverse=True)`: a stable
sort putting larger modification times first. -/
def sortByMtimeDesc (l : List Note) : List Note := l.insertionSort mtimeGE

/-- The state of the `AutocompleteWidget` search box: the typed text, the edit
cursor position, and the optional autocomplete suggestion. -/
structure SearchBox where
  editText : String
  editPos : Nat
  autocompleteText : Option String
deriving DecidableEq, Repr

/-- Python truthiness of the optional `autocomplete_text` attribute
(`None` and the empty string are falsy). -/
def optTruthy : Option String → Bool
  | none => false
  | some s => decide (s ≠ "")

/-- `AutocompleteWidget.get_text`: the text to display in the search bar
together with its run-length styled ranges, following the four branches of the
source. -/
def AutocompleteWidget.get_text (w : SearchBox) : String × List (String × Nat) :=
  if w.editText = "" ∧ optTruthy w.autocompleteText = false then
    ("Find or Create", [("placeholder", "Find or Create".length)])
  else if optTruthy w.autocompleteText = false then
    (w.editText, [])
  else
    let ac := w.autocompleteText.getD ""
    if w.editText ≠ "" ∧ startswith (lower ac) (lower w.editText) then
      let text : String := ⟨w.editText.data ++ ac.data.drop w.editText.length⟩
      (text, [("search", w.editText.length),
              ("autocomplete", text.length - w.editText.length)])
    else
      (ac, [("autocomplete", ac.length)])

/-- `AutocompleteWidget.consume`, at the widget level (the triggered re-filter
is handled at the frame level): turn the suggestion into typed text when it is
truthy and strictly longer than the typed text, placing the cursor at its end. -/
def AutocompleteWidget.consume (w : SearchBox) : SearchBox × Bool :=
  match w.autocompleteText with
  | some ac =>
      if ac ≠ "" ∧ w.editText.length < ac.length then
        ({ editText := ac, editPos := ac.length, autocompleteText := none }, true)
      else (w, false)
  | none => (w, false)

/-- The state of the `NoteFilterListBox`: the widget cache (an insert-ordered
association list from note path to the note captured when the widget was
built), the list walker contents (the note held by each displayed widget, in
display order), the fake-focus flag and the focused row index. -/
structure ListBox where
  cache : List (String × Note)
  listWalker : List Note
  fakeFocus : Bool
  focusIdx : Nat
deriving DecidableEq, Repr

/-- The loop body of `NoteFilterListBox.filter`: look the note's path up in
the widget cache, reuse the cached widget on a hit, and otherwise create a new
widget and cache it; either way the widget is appended to the row list. -/
def filterStep (acc : List (String × Note) × List Note) (note : Note) :
    List (String × Note) × List Note :=
  match acc.1.lookup note.abspath with
  | some w => (acc.1, acc.2 ++ [w])
  | none => (acc.1 ++ [(note.abspath, note)], acc.2 ++ [note])

/-- `NoteFilterListBox.filter`: build the widget row for each matching note,
reusing the cached widget when one exists for the note's path and otherwise
creating and caching a new one; the walker is emptied and repopulated, which
resets the focus to the first row. -/
def NoteFilterListBox.filter (lb : ListBox) (matching : List Note) : ListBox :=
  let r := matching.foldl filterStep (lb.cache, [])
  { lb with cache := r.1, listWalker := r.2, focusIdx := 0 }

/-- `NoteFilterListBox.focus_note`: focus the first widget holding the given
note, leaving the focus unchanged when none does. -/
def NoteFilterListBox.focus_note (lb : ListBox) (note : Note) : ListBox :=
  match lb.listWalker.findIdx? (fun w => w == note) with
  | some i => { lb with focusIdx := i }
  | none => lb

/-- The component-local fault that Python raises when `self.focus` is `None`
and `.note` is taken on it. -/
inductive UIErr where
  | attributeError
deriving DecidableEq, Repr

/-- `NoteFilterListBox.selected_note`: the note of the focused widget.  When
the walker is empty the focus is `None` and the attribute access raises. -/
def NoteFilterListBox.selected_note (lb : ListBox) : Except UIErr Note :=
  match lb.listWalker[lb.focusIdx]? with
  | some n => Except.ok n
  | none => Except.error UIErr.attributeError

/-- The key events dispatched by `MainFrame.keypress`. -/
inductive Key where
  | esc | ctrlD | enter | ctrlX | tab | left | right
  | down | up | pageUp | pageDown | backspace
  | char (c : Char)
deriving DecidableEq, Repr

/-- Observable side effects of event processing: a Filter Engine evaluation on
a query, the application of a selection change (recording the value of the
suppress-re-entrant-filtering flag at that moment), an editor launch with its
shell-quoted path argument, the creation of a note in the store, and quitting. -/
inductive Effect where
  | filterEval (query : String)
  | selectionApplied (suppressFilterFlag : Bool)
  | openEditor (arg : String)
  | created (note : Note)
  | quit
deriving DecidableEq, Repr

/-- The state of the `MainFrame`: the notebook contents and its configuration,
the search box, the list box, the selected-note reference, the two suppression
flags and whether the body shows the no-notes placeholder. -/
structure MainFrame where
  notes : List Note
  notesDir : String
  extension : String
  now : Nat
  searchBox : SearchBox
  listBox : ListBox
  selectedNote : Option Note
  suppressFilter : Bool
  suppressFocus : Bool
  bodyPlaceholder : Bool
deriving DecidableEq, Repr

/-- The `selected_note` property setter: a no-op when re-focusing is
suppressed; otherwise it writes the suggestion (the note's title, or clears
it), sets or clears the list box fake focus, focuses the note's widget, and
stores the reference.  The emitted effect records the value of the
suppress-re-entrant-filtering flag while the change is applied. -/
def MainFrame.set_selected_note (st : MainFrame) (note : Option Note) :
    MainFrame × List Effect :=
  if st.suppressFocus then (st, [])
  else
    match note with
    | some n =>
        ({ st with
            searchBox := { st.searchBox with autocompleteText := some n.title },
            listBox := NoteFilterListBox.focus_note
              { st.listBox with fakeFocus := true } n,
            selectedNote := some n },
         [Effect.selectionApplied st.suppressFilter])
    | none =>
        ({ st with
            searchBox := { st.searchBox with autocompleteText := none },
            listBox := { st.listBox with fakeFocus := false },
            selectedNote := none },
         [Effect.selectionApplied st.suppressFilter])

/-- The autocomplete candidates of `MainFrame.filter`: the sorted matches whose
title starts with the query (case-insensitive), computed only for a non-empty
query. -/
def autocompletableMatches (notes : List Note) (query : String) : List Note :=
  if query ≠ "" then
    (sortByMtimeDesc (searchNotes notes query)).filter
      (fun n => startswith (lower n.title) (lower query))
  else []

/-- `MainFrame.filter`: the synchronized list box filter and search box
autocomplete.  Returns without doing anything when re-entrant filtering is
suppressed; otherwise chooses the body (placeholder when the notebook is
empty), evaluates the Filter Engine (search then stable sort by modification
time descending), repopulates the list box, and derives the new selection from
the first autocomplete candidate. -/
def MainFrame.filter (st : MainFrame) (query : String) : MainFrame × List Effect :=
  if st.suppressFilter then (st, [])
  else
    let st1 := { st with bodyPlaceholder := st.notes.isEmpty }
    let matching := sortByMtimeDesc (searchNotes st1.notes query)
    let st2 := { st1 with listBox := NoteFilterListBox.filter st1.listBox matching }
    let r :=
      match autocompletableMatches st2.notes query with
      | n :: _ => st2.set_selected_note (some n)
      | [] => st2.set_selected_note none
    (r.1, Effect.filterEval query :: r.2)

/-- urwid `Edit.set_edit_text`, at the frame level: the change signal is
emitted with the new text (handled by `on_search_box_changed`, which runs
`MainFrame.filter`), then the text is stored and the cursor clamped to its
length.  Modelled from the spec: urwid is an external collaborator. -/
def MainFrame.set_edit_text (st : MainFrame) (text : String) : MainFrame × List Effect :=
  let r := st.filter text
  ({ r.1 with searchBox :=
      { r.1.searchBox with
          editText := text,
          editPos := min r.1.searchBox.editPos text.length } }, r.2)

/-- `AutocompleteWidget.consume` at the frame level: replacing the typed text
goes through `set_edit_text` and hence triggers a re-filter on the consumed
title before the cursor is moved to its end and the suggestion is cleared. -/
def MainFrame.consumeSearchBox (st : MainFrame) : MainFrame × Bool × List Effect :=
  match st.searchBox.autocompleteText with
  | some ac =>
      if ac ≠ "" ∧ st.searchBox.editText.length < ac.length then
        let r := st.set_edit_text ac
        ({ r.1 with searchBox :=
            { r.1.searchBox with
                editPos := ac.length,
                autocompleteText := none } }, true, r.2)
      else (st, false, [])
  | none => (st, false, [])

/-- urwid `Edit.keypress` for the keys the frame forwards to the search box:
backspace deletes the character before the cursor (unhandled at position 0),
left and right move the cursor (unhandled at the ends), a printable character
is inserted at the cursor, and any other key is returned unhandled.  Text
changes emit the change signal, re-running the filter.  Modelled from the
spec: urwid is an external collaborator. -/
def MainFrame.search_box_keypress (st : MainFrame) (key : Key) :
    MainFrame × List Effect × Option Key :=
  match key with
  | Key.backspace =>
      if st.searchBox.editPos = 0 then (st, [], some Key.backspace)
      else
        let p := st.searchBox.editPos - 1
        let newText : String :=
          ⟨st.searchBox.editText.data.take p ++
            st.searchBox.editText.data.drop st.searchBox.editPos⟩
        let r := st.set_edit_text newText
        ({ r.1 with searchBox := { r.1.searchBox with editPos := p } }, r.2, none)
  | Key.left =>
      if st.searchBox.editPos = 0 then (st, [], some Key.left)
      else ({ st with searchBox :=
        { st.searchBox with editPos := st.searchBox.editPos - 1 } }, [], none)
  | Key.right =>
      if st.searchBox.editText.length ≤ st.searchBox.editPos then
        (st, [], some Key.right)
      else ({ st with searchBox :=
        { st.searchBox with editPos := st.searchBox.editPos + 1 } }, [], none)
  | Key.char c =>
      let p := st.searchBox.editPos
      let newText : String :=
        ⟨st.searchBox.editText.data.take p ++ c ::
          st.searchBox.editText.data.drop p⟩
      let r := st.set_edit_text newText
      ({ r.1 with searchBox := { r.1.searchBox with editPos := p + 1 } }, r.2, none)
  | k => (st, [], some k)

/-- Result of the note index adapter's `create`/`add_new` operation. -/
inductive CreateResult where
  | ok (n : Note) (notes : List Note)
  | alreadyExists
  | invalidTitle
deriving DecidableEq, Repr

/-- Modelled from the spec: the note index adapter's `create(title)` operation
(`notebook.py` is not under `src/`).  It fails with `InvalidTitle` when the
title is empty or contains a path separator, with `NoteAlreadyExists` when a
note of that title already exists, and otherwise creates and returns a note
with the exact given title, stored under the notes directory with the
configured extension. -/
def add_new (notes : List Note) (dir ext : String) (now : Nat) (title : String) :
    CreateResult :=
  if title = "" ∨ title.data.contains '/' then CreateResult.invalidTitle
  else if notes.any (fun n => n.title == title) then CreateResult.alreadyExists
  else
    let n : Note := { title := title, abspath := dir ++ "/" ++ title ++ ext,
                      mtime := now }
    CreateResult.ok n (notes ++ [n])

/-- urwid `ListBox.keypress` cursor movement on the walker: unhandled when the
list is empty or the move hits a boundary, otherwise the focus row moves (page
movements jump by the body height, clamped).  Modelled from the spec: urwid is
an external collaborator. -/
def listMove (lb : ListBox) (maxrow : Nat) (key : Key) : ListBox × Option Key :=
  if lb.listWalker.isEmpty then (lb, some key)
  else
    match key with
    | Key.up =>
        if lb.focusIdx = 0 then (lb, some Key.up)
        else ({ lb with focusIdx := lb.focusIdx - 1 }, none)
    | Key.down =>
        if lb.listWalker.length ≤ lb.focusIdx + 1 then (lb, some Key.down)
        else ({ lb with focusIdx := lb.focusIdx + 1 }, none)
    | Key.pageUp => ({ lb with focusIdx := lb.focusIdx - maxrow }, none)
    | Key.pageDown =>
        let j := min (lb.focusIdx + maxrow) (lb.listWalker.length - 1)
        ({ lb with focusIdx := j }, none)
    | k => (lb, some k)

/-- The result of processing one key event: the new frame state, the emitted
effects, and the key returned unhandled to the toolkit (if any). -/
structure KeyResult where
  frame : MainFrame
  effects : List Effect
  unhandled : Option Key
deriving DecidableEq, Repr

/-- `NoteFilterListBox.keypress` at the frame level: let the urwid list box
move the focus, then unconditionally call `on_changed` with `selected_note` —
which raises when the walker is empty. -/
def MainFrame.list_box_keypress (st : MainFrame) (maxrow : Nat) (key : Key) :
    Except UIErr KeyResult :=
  let m := listMove st.listBox maxrow key
  let st1 := { st with listBox := m.1 }
  match NoteFilterListBox.selected_note st1.listBox with
  | Except.error e => Except.error e
  | Except.ok n =>
      let r := st1.set_selected_note (some n)
      Except.ok { frame := r.1, effects := r.2, unhandled := m.2 }

/-- `MainFrame.keypress`: the key dispatcher.  Both suppression flags are
reset on entry; the branches follow the source's `if`/`elif` chain. -/
def MainFrame.keypress (st0 : MainFrame) (maxrow : Nat) (key : Key) :
    Except UIErr KeyResult :=
  let st := { st0 with suppressFilter := false, suppressFocus := false }
  match key with
  | Key.esc | Key.ctrlD =>
      match st.selectedNote with
      | some _ =>
          let r := st.set_selected_note none
          Except.ok { frame := r.1, effects := r.2, unhandled := none }
      | none =>
          if st.searchBox.editText ≠ "" then
            let r := st.set_edit_text ""
            Except.ok { frame := r.1, effects := r.2, unhandled := none }
          else Except.ok { frame := st, effects := [], unhandled := none }
  | Key.enter =>
      let r1 : MainFrame × List Effect :=
        match st.selectedNote with
        | some n => (st, [Effect.openEditor n.abspath])
        | none =>
            if st.searchBox.editText ≠ "" then
              match add_new st.notes st.notesDir st.extension st.now
                  st.searchBox.editText with
              | CreateResult.ok n newNotes =>
                  ({ st with notes := newNotes },
                   [Effect.created n, Effect.openEditor n.abspath])
              | CreateResult.alreadyExists =>
                  (st, [Effect.openEditor
                    (st.searchBox.editText ++ st.extension)])
              | CreateResult.invalidTitle => (st, [])
            else (st, [])
      let st2 := { r1.1 with suppressFocus := true }
      let r2 := st2.filter st2.searchBox.editText
      Except.ok { frame := r2.1, effects := r1.2 ++ r2.2, unhandled := none }
  | Key.ctrlX =>
      Except.ok { frame := st, effects := [Effect.quit], unhandled := none }
  | Key.tab | Key.left | Key.right =>
      match st.selectedNote with
      | some _ =>
          let c := st.consumeSearchBox
          if c.2.1 then
            Except.ok { frame := c.1, effects := c.2.2, unhandled := none }
          else
            let r := c.1.search_box_keypress key
            Except.ok { frame := r.1, effects := c.2.2 ++ r.2.1,
                        unhandled := r.2.2 }
      | none =>
          let r := st.search_box_keypress key
          Except.ok { frame := r.1, effects := r.2.1, unhandled := r.2.2 }
  | Key.down =>
      if st.listBox.fakeFocus = false then
        let st1 := { st with listBox := { st.listBox with fakeFocus := true } }
        match NoteFilterListBox.selected_note st1.listBox with
        | Except.error e => Except.error e
        | Except.ok n =>
            let r := st1.set_selected_note (some n)
            Except.ok { frame := r.1, effects := r.2, unhandled := none }
      else st.list_box_keypress maxrow Key.down
  | Key.up | Key.pageUp | Key.pageDown => st.list_box_keypress maxrow key
  | Key.backspace =>
      let doConsume : Bool :=
        match st.selectedNote with
        | none => false
        | some n =>
            if st.searchBox.editText = "" then true
            else !(startswith (lower n.title) (lower st.searchBox.editText))
      let r1 : MainFrame × List Effect :=
        if doConsume then
          let c := st.consumeSearchBox
          (c.1, c.2.2)
        else st.set_selected_note none
      let st2 := { r1.1 with suppressFocus := true }
      let r2 := st2.search_box_keypress Key.backspace
      Except.ok { frame := r2.1, effects := r1.2 ++ r2.2.1,
                  unhandled := r2.2.2 }
  | Key.char c =>
      let r := st.search_box_keypress (Key.char c)
      Except.ok { frame := r.1, effects := r.2.1, unhandled := r.2.2 }

/-- The selection that `MainFrame.filter` derives for a query: the first
autocomplete candidate, or `none`. -/
def autocompleteCandidate (notes : List Note) (query : String) : Option Note :=
  (autocompletableMatches notes query).head?

/-- A sequence of list box filter calls, for the cache-lifetime invariants. -/
def runFilters (lb : ListBox) (ms : List (List Note)) : ListBox :=
  ms.foldl NoteFilterListBox.filter lb

/-- The paths that have a cached widget, in insertion order. -/
def cacheKeys (c : List (String × Note)) : List String := c.map Prod.fst

/-! ## Basic lemmas about the string helpers and the sort -/

theorem strContains_of_startswith (s p : String) (h : startswith s p = true) :
    strContains s p = true := by
  unfold strContains
  rw [List.any_eq_true]
  exact ⟨s.data, (List.mem_tails _ _).mpr List.suffix_rfl, h⟩

theorem mem_searchNotes (notes : List Note) (q : String) (n : Note)
    (hn : n ∈ notes) (h : strContains (lower n.title) (lower q) = true) :
    n ∈ searchNotes notes q := by
  unfold searchNotes
  exact List.mem_filter.mpr ⟨hn, h⟩

theorem searchNotes_subset (notes : List Note) (q : String) :
    ∀ n ∈ searchNotes notes q, n ∈ notes := by
  intro n hn
  exact (List.mem_filter.mp hn).1

theorem sorted_sortByMtimeDesc (l : List Note) :
    (sortByMtimeDesc l).Pairwise mtimeGE :=
  List.sorted_insertionSort mtimeGE l

theorem perm_sortByMtimeDesc (l : List Note) : List.Perm (sortByMtimeDesc l) l :=
  List.perm_insertionSort mtimeGE l

theorem mem_sortByMtimeDesc (l : List Note) (n : Note) :
    n ∈ sortByMtimeDesc l ↔ n ∈ l :=
  List.mem_insertionSort mtimeGE

theorem filter_mtime_sortByMtimeDesc (t : Nat) (l : List Note) :
    (sortByMtimeDesc l).filter (fun x => x.mtime == t) =
      l.filter (fun x => x.mtime == t) := by
  have hmemc : ∀ x ∈ l.filter (fun x => x.mtime == t), x.mtime = t := by
    intro x hx
    simpa using (List.mem_filter.mp hx).2
  have hpw : (l.filter (fun x => x.mtime == t)).Pairwise mtimeGE := by
    apply List.pairwise_of_forall_mem_list
    intro a ha b hb
    unfold mtimeGE
    rw [hmemc a ha, hmemc b hb]
  have hsub : List.Sublist (l.filter (fun x => x.mtime == t)) (sortByMtimeDesc l) :=
    List.sublist_insertionSort hpw (List.filter_sublist l)
  have hsub2 : List.Sublist (l.filter (fun x => x.mtime == t))
      ((sortByMtimeDesc l).filter (fun x => x.mtime == t)) := by
    have h1 := hsub.filter (fun x => x.mtime == t)
    rwa [List.filter_eq_self.mpr (fun a ha => (List.mem_filter.mp ha).2)] at h1
  have hperm : List.Perm ((sortByMtimeDesc l).filter (fun x => x.mtime == t))
      (l.filter (fun x => x.mtime == t)) := (perm_sortByMtimeDesc l).filter _
  exact (hsub2.eq_of_length hperm.length_eq.symm).symm

/-! ## The derived selection -/

theorem autocompletableMatches_sorted (notes : List Note) (q : String) :
    (autocompletableMatches notes q).Pairwise mtimeGE := by
  unfold autocompletableMatches
  split
  · exact (sorted_sortByMtimeDesc _).filter _
  · exact List.Pairwise.nil

theorem mem_autocompletableMatches (notes : List Note) (q : String) (n : Note) :
    n ∈ autocompletableMatches notes q →
      n ∈ notes ∧ startswith (lower n.title) (lower q) = true := by
  unfold autocompletableMatches
  split
  · intro h
    obtain ⟨h1, h2⟩ := List.mem_filter.mp h
    exact ⟨searchNotes_subset notes q n ((mem_sortByMtimeDesc _ n).mp h1), h2⟩
  · intro h
    exact absurd h (List.not_mem_nil n)

theorem mem_autocompletableMatches_of (notes : List Note) (q : String) (n : Note)
    (hq : q ≠ "") (hn : n ∈ notes)
    (hp : startswith (lower n.title) (lower q) = true) :
    n ∈ autocompletableMatches notes q := by
  unfold autocompletableMatches
  rw [if_pos hq]
  refine List.mem_filter.mpr ⟨?_, hp⟩
  exact (mem_sortByMtimeDesc _ n).mpr
    (mem_searchNotes notes q n hn (strContains_of_startswith _ _ hp))

/-- The core of the autocomplete-correctness property: for a non-empty query,
the first autocomplete candidate is the strictly most recently modified note
whose title starts with the query (case-insensitively). -/
theorem autocompleteCandidate_eq_most_recent (notes : List Note) (q : String)
    (n : Note) (hq : q ≠ "") (hn : n ∈ notes)
    (hp : startswith (lower n.title) (lower q) = true)
    (hmax : ∀ m ∈ notes, startswith (lower m.title) (lower q) = true →
      m ≠ n → m.mtime < n.mtime) :
    autocompleteCandidate notes q = some n := by
  unfold autocompleteCandidate
  have hmem := mem_autocompletableMatches_of notes q n hq hn hp
  cases hL : autocompletableMatches notes q with
  | nil => rw [hL] at hmem; exact absurd hmem (List.not_mem_nil n)
  | cons h t =>
      have hsorted := autocompletableMatches_sorted notes q
      rw [hL] at hsorted hmem
      simp only [List.head?_cons, Option.some.injEq]
      by_contra hne
      have hht : n ∈ t := by
        rcases List.mem_cons.mp hmem with h1 | h1
        · exact absurd h1.symm hne
        · exact h1
      have hle : mtimeGE h n := (List.pairwise_cons.mp hsorted).1 n hht
      have hmemh : h ∈ autocompletableMatches notes q := by
        rw [hL]; exact List.mem_cons_self h t
      obtain ⟨hhnotes, hhp⟩ := mem_autocompletableMatches notes q h hmemh
      have hlt : h.mtime < n.mtime := hmax h hhnotes hhp hne
      unfold mtimeGE at hle
      omega

/-! ## Characterizations of `MainFrame.filter` -/

/-- A query-change filter pass in the normal state (no suppression): the
selection and the suggestion are re-derived from the autocomplete candidates,
the typed text is untouched, and exactly one Filter Engine evaluation is
emitted, followed by the derived selection change applied with the
suppress-re-entrant-filtering flag still false. -/
theorem filter_char_unsuppressed (st : MainFrame) (q : String)
    (hf : st.suppressFilter = false) (ho : st.suppressFocus = false) :
    (st.filter q).1.selectedNote = autocompleteCandidate st.notes q ∧
    (st.filter q).1.searchBox.autocompleteText =
      (autocompleteCandidate st.notes q).map Note.title ∧
    (st.filter q).1.searchBox.editText = st.searchBox.editText ∧
    (st.filter q).1.searchBox.editPos = st.searchBox.editPos ∧
    (st.filter q).1.notes = st.notes ∧
    (st.filter q).1.suppressFilter = false ∧
    (st.filter q).1.suppressFocus = false ∧
    (st.filter q).2 = [Effect.filterEval q, Effect.selectionApplied false] ∧
    (st.filter q).1.notesDir = st.notesDir ∧
    (st.filter q).1.extension = st.extension ∧
    (st.filter q).1.now = st.now := by
  unfold MainFrame.filter
  cases hM : autocompletableMatches st.notes q with
  | nil =>
      simp [hM, hf, ho, MainFrame.set_selected_note, autocompleteCandidate]
  | cons n t =>
      simp [hM, hf, ho, MainFrame.set_selected_note, autocompleteCandidate]

/-- A filter pass with re-focusing suppressed: the search box, the selection
and the flags are untouched (only the list box and body are rebuilt), and the
Filter Engine still runs exactly once when re-entrant filtering is not also
suppressed. -/
theorem filter_char_suppressed_focus (st : MainFrame) (q : String)
    (ho : st.suppressFocus = true) :
    (st.filter q).1.selectedNote = st.selectedNote ∧
    (st.filter q).1.searchBox = st.searchBox ∧
    (st.filter q).1.notes = st.notes ∧
    (st.filter q).1.suppressFilter = st.suppressFilter ∧
    (st.filter q).1.suppressFocus = true ∧
    (st.filter q).2 = (if st.suppressFilter then [] else [Effect.filterEval q]) ∧
    (st.filter q).1.notesDir = st.notesDir ∧
    (st.filter q).1.extension = st.extension ∧
    (st.filter q).1.now = st.now := by
  unfold MainFrame.filter
  cases hsf : st.suppressFilter with
  | true => simp [hsf, ho]
  | false =>
      cases hM : autocompletableMatches st.notes q with
      | nil => simp [hM, hsf, ho, MainFrame.set_selected_note]
      | cons n t => simp [hM, hsf, ho, MainFrame.set_selected_note]

/-- `set_edit_text` in the normal state: the triggered filter re-derives the
selection and suggestion from the new text before the text is stored. -/
theorem set_edit_text_char_unsuppressed (st : MainFrame) (t : String)
    (hf : st.suppressFilter = false) (ho : st.suppressFocus = false) :
    (st.set_edit_text t).1.selectedNote = autocompleteCandidate st.notes t ∧
    (st.set_edit_text t).1.searchBox.autocompleteText =
      (autocompleteCandidate st.notes t).map Note.title ∧
    (st.set_edit_text t).1.searchBox.editText = t ∧
    (st.set_edit_text t).1.notes = st.notes ∧
    (st.set_edit_text t).1.suppressFilter = false ∧
    (st.set_edit_text t).1.suppressFocus = false ∧
    (st.set_edit_text t).2 = [Effect.filterEval t, Effect.selectionApplied false] := by
  obtain ⟨h1, h2, h3, h4, h5, h6, h7, h8, _⟩ := filter_char_unsuppressed st t hf ho
  unfold MainFrame.set_edit_text
  exact ⟨h1, h2, rfl, h5, h6, h7, h8⟩

/-- `set_edit_text` with re-focusing suppressed: the selection and suggestion
are untouched, only the text and cursor change. -/
theorem set_edit_text_char_suppressed_focus (st : MainFrame) (t : String)
    (ho : st.suppressFocus = true) :
    (st.set_edit_text t).1.selectedNote = st.selectedNote ∧
    (st.set_edit_text t).1.searchBox.autocompleteText =
      st.searchBox.autocompleteText ∧
    (st.set_edit_text t).1.searchBox.editText = t ∧
    (st.set_edit_text t).1.notes = st.notes ∧
    (st.set_edit_text t).1.suppressFilter = st.suppressFilter ∧
    (st.set_edit_text t).1.suppressFocus = true ∧
    (st.set_edit_text t).2 =
      (if st.suppressFilter then [] else [Effect.filterEval t]) := by
  obtain ⟨h1, h2, h3, h4, h5, h6, _, _, _⟩ := filter_char_suppressed_focus st t ho
  unfold MainFrame.set_edit_text
  dsimp only
  refine ⟨h1, ?_, rfl, h3, h4, h5, h6⟩
  rw [h2]

/-- A successful frame-level consume: the suggestion becomes the typed text,
the intermediate re-filter re-derives the selection from the full suggestion,
the cursor lands at its end and the suggestion is cleared. -/
theorem consumeSearchBox_char (st : MainFrame) (ac : String)
    (hac : st.searchBox.autocompleteText = some ac) (hne : ac ≠ "")
    (hlt : st.searchBox.editText.length < ac.length)
    (hf : st.suppressFilter = false) (ho : st.suppressFocus = false) :
    (st.consumeSearchBox.2.1 = true) ∧
    st.consumeSearchBox.1.searchBox.editText = ac ∧
    st.consumeSearchBox.1.searchBox.editPos = ac.length ∧
    st.consumeSearchBox.1.searchBox.autocompleteText = none ∧
    st.consumeSearchBox.1.selectedNote = autocompleteCandidate st.notes ac ∧
    st.consumeSearchBox.1.notes = st.notes ∧
    st.consumeSearchBox.1.suppressFilter = false ∧
    st.consumeSearchBox.1.suppressFocus = false ∧
    st.consumeSearchBox.2.2 =
      [Effect.filterEval ac, Effect.selectionApplied false] := by
  obtain ⟨h1, h2, h3, h4, h5, h6, h7⟩ := set_edit_text_char_unsuppressed st ac hf ho
  unfold MainFrame.consumeSearchBox
  rw [hac]
  dsimp only
  rw [if_pos ⟨hne, hlt⟩]
  dsimp only
  exact ⟨rfl, h3, rfl, rfl, h1, h4, h5, h6, h7⟩

theorem autocompleteCandidate_eq_none (notes : List Note) (q : String)
    (hnone : ∀ m ∈ notes, startswith (lower m.title) (lower q) = false) :
    autocompleteCandidate notes q = none := by
  unfold autocompleteCandidate
  have hnil : autocompletableMatches notes q = [] := by
    rw [List.eq_nil_iff_forall_not_mem]
    intro x hx
    obtain ⟨hxn, hxs⟩ := mem_autocompletableMatches notes q x hx
    rw [hnone x hxn] at hxs
    exact Bool.false_ne_true hxs
  rw [hnil]
  rfl

/-! ## Concrete states used by counterexamples and witnesses -/

/-- "Grocery List", the most recently modified note of the running example. -/
def gNote : Note := { title := "Grocery List", abspath := "/n/g.txt", mtime := 10 }

/-- "Groceries Budget", an older note of the running example. -/
def bNote : Note := { title := "Groceries Budget", abspath := "/n/b.txt", mtime := 5 }

/-- An empty search box. -/
def sb0 : SearchBox := { editText := "", editPos := 0, autocompleteText := none }

/-- An empty list box with an empty widget cache. -/
def lb0 : ListBox := { cache := [], listWalker := [], fakeFocus := false, focusIdx := 0 }

/-- The base frame of the running example: two notes, nothing typed, nothing
selected, no suppression. -/
def baseFrame : MainFrame :=
  { notes := [bNote, gNote], notesDir := "/n", extension := ".txt", now := 20,
    searchBox := sb0, listBox := lb0, selectedNote := none,
    suppressFilter := false, suppressFocus := false, bodyPlaceholder := false }

/-! ## C1 -/

/-- C1 (counterexample): the claim quantifies over all queries including the
empty one, but filtering on the empty query clears the selection even though
the note "a" is the (unique, hence most recently modified) note whose title
starts with the empty query; the claim would require it to become selected. -/
theorem C1_counterexample :
    startswith (lower gNote.title) (lower "") = true ∧
    (∀ m ∈ baseFrame.notes, startswith (lower m.title) (lower "") = true →
      m ≠ gNote → m.mtime < gNote.mtime) ∧
    (baseFrame.filter "").1.selectedNote = none ∧
    (baseFrame.filter "").1.selectedNote ≠ some gNote ∧
    (baseFrame.filter "").1.searchBox.autocompleteText = none := by
  decide

/-- C1 (amended: restricted to non-empty queries, as the empty-query branch of
the code unconditionally clears the selection): after filtering on a non-empty
query `q`, if `n` is the strictly most recently modified note whose title
starts with `q` (case-insensitive) then `n` becomes the selected note and the
autocomplete suggestion is its title; and if no note's title starts with `q`,
the selection and the suggestion are cleared. -/
theorem autocomplete_selects_most_recent (st : MainFrame) (q : String)
    (hf : st.suppressFilter = false) (ho : st.suppressFocus = false)
    (hq : q ≠ "") :
    (∀ n ∈ st.notes, startswith (lower n.title) (lower q) = true →
      (∀ m ∈ st.notes, startswith (lower m.title) (lower q) = true →
        m ≠ n → m.mtime < n.mtime) →
      (st.filter q).1.selectedNote = some n ∧
      (st.filter q).1.searchBox.autocompleteText = some n.title) ∧
    ((∀ m ∈ st.notes, startswith (lower m.title) (lower q) = false) →
      (st.filter q).1.selectedNote = none ∧
      (st.filter q).1.searchBox.autocompleteText = none) := by
  obtain ⟨h1, h2, _⟩ := filter_char_unsuppressed st q hf ho
  constructor
  · intro n hn hp hmax
    have hc := autocompleteCandidate_eq_most_recent st.notes q n hq hn hp hmax
    rw [h1, h2, hc]
    exact ⟨rfl, rfl⟩
  · intro hnone
    have hc := autocompleteCandidate_eq_none st.notes q hnone
    rw [h1, h2, hc]
    exact ⟨rfl, rfl⟩

/-- C1 (witness): Scenario A. Filtering on "Gro" selects "Grocery List"
(modified at time 10, more recent than "Groceries Budget" at time 5) and
suggests its title. -/
theorem autocomplete_selects_most_recent_witness :
    (baseFrame.filter "Gro").1.selectedNote = some gNote ∧
    (baseFrame.filter "Gro").1.searchBox.autocompleteText = some gNote.title :=
  (autocomplete_selects_most_recent baseFrame "Gro" (by decide) (by decide)
    (by decide)).1 gNote (by decide) (by decide) (by decide)

instance {e a : Type} [DecidableEq e] [DecidableEq a] : DecidableEq (Except e a) := fun x y =>
  match x, y with
  | Except.ok v, Except.ok w =>
      if h : v = w then isTrue (by rw [h])
      else isFalse (by intro hc; injection hc; contradiction)
  | Except.ok _, Except.error _ => isFalse (by intro hc; injection hc)
  | Except.error _, Except.ok _ => isFalse (by intro hc; injection hc)
  | Except.error v, Except.error w =>
      if h : v = w then isTrue (by rw [h])
      else isFalse (by intro hc; injection hc; contradiction)

/-! ## C2 -/

/-- C2 (counterexample): the claim says the suppress-re-entrant-filtering flag
is set (true) while the derived selection change is applied.  Processing the
query-change event for typing 'G' into the base frame applies the derived
selection change with the flag still false — the flag is never set by the
code — while the Filter Engine nonetheless runs exactly once. -/
theorem C2_counterexample :
    (baseFrame.keypress 5 (Key.char 'G')).map (fun r => r.effects) =
      Except.ok [Effect.filterEval "G", Effect.selectionApplied false] := by
  decide

/-- C2 (amended): the suppress-re-entrant-filtering flag is never set during a
query-change event — the derived selection change is applied with it false —
yet the Filter Engine is still evaluated exactly once per query-change event,
because applying the derived selection writes only the suggestion and the
list focus, never the typed text, so no second change event fires. -/
theorem query_change_filters_once (st : MainFrame) (maxrow : Nat) (c : Char) :
    ∃ r : KeyResult, st.keypress maxrow (Key.char c) = Except.ok r ∧
      r.effects.countP (fun e => match e with
        | Effect.filterEval _ => true
        | _ => false) = 1 ∧
      (∀ b : Bool, Effect.selectionApplied b ∈ r.effects → b = false) ∧
      r.unhandled = none := by
  unfold MainFrame.keypress
  dsimp only
  unfold MainFrame.search_box_keypress
  dsimp only
  obtain ⟨_, _, _, _, _, _, h7⟩ := set_edit_text_char_unsuppressed
    { st with suppressFilter := false, suppressFocus := false }
    ⟨st.searchBox.editText.data.take st.searchBox.editPos ++ c ::
      st.searchBox.editText.data.drop st.searchBox.editPos⟩ rfl rfl
  refine ⟨_, rfl, ?_, ?_, rfl⟩
  · rw [h7]
    rfl
  · intro b hb
    rw [h7] at hb
    rcases List.mem_cons.mp hb with h | h
    · exact absurd h (by simp)
    · rcases List.mem_cons.mp h with h2 | h2
      · injection h2
      · exact absurd h2 (List.not_mem_nil _)

/-- C2 (witness): the amended theorem applied at the base frame and the
character 'G'. -/
theorem query_change_filters_once_witness :
    ∃ r : KeyResult, baseFrame.keypress 5 (Key.char 'G') = Except.ok r ∧
      r.effects.countP (fun e => match e with
        | Effect.filterEval _ => true
        | _ => false) = 1 ∧
      (∀ b : Bool, Effect.selectionApplied b ∈ r.effects → b = false) ∧
      r.unhandled = none :=
  query_change_filters_once baseFrame 5 'G'

/-! ## C6 -/

/-- C6: `consume()` never shortens the typed text; when a suggestion exists
that is strictly longer than the typed text it becomes the typed text, the
cursor moves to its end, the suggestion is cleared and `true` is returned; in
every other state `consume()` returns `false` and leaves the widget unchanged. -/
theorem consume_spec (w : SearchBox) :
    w.editText.length ≤ (AutocompleteWidget.consume w).1.editText.length ∧
    (∀ ac, w.autocompleteText = some ac → w.editText.length < ac.length →
      AutocompleteWidget.consume w =
        ({ editText := ac, editPos := ac.length, autocompleteText := none }, true)) ∧
    ((¬ ∃ ac, w.autocompleteText = some ac ∧ w.editText.length < ac.length) →
      AutocompleteWidget.consume w = (w, false)) := by
  have hlong : ∀ ac : String, w.editText.length < ac.length → ac ≠ "" := by
    intro ac hlt he
    rw [he] at hlt
    have h0 : ("" : String).length = 0 := rfl
    omega
  refine ⟨?_, ?_, ?_⟩
  · unfold AutocompleteWidget.consume
    cases hac : w.autocompleteText with
    | none => exact Nat.le_refl _
    | some ac =>
        dsimp only
        by_cases hcond : ac ≠ "" ∧ w.editText.length < ac.length
        · rw [if_pos hcond]
          exact Nat.le_of_lt hcond.2
        · rw [if_neg hcond]
  · intro ac hac hlt
    unfold AutocompleteWidget.consume
    rw [hac]
    dsimp only
    rw [if_pos ⟨hlong ac hlt, hlt⟩]
  · intro hnot
    unfold AutocompleteWidget.consume
    cases hac : w.autocompleteText with
    | none => rfl
    | some ac =>
        dsimp only
        rw [if_neg]
        intro hcond
        exact hnot ⟨ac, hac, hcond.2⟩

/-- The widget state used by the C6 witness: typed text "Gro" with the
suggestion "Grocery List". -/
def consumeW : SearchBox :=
  { editText := "Gro", editPos := 3, autocompleteText := some "Grocery List" }

/-- The widget state after the C6 witness consume. -/
def consumedW : SearchBox :=
  { editText := "Grocery List", editPos := 12, autocompleteText := none }

/-- C6 (witness): consuming the suggestion "Grocery List" over the typed text
"Gro" replaces the text, moves the cursor to position 12 and clears the
suggestion. -/
theorem consume_spec_witness :
    consumeW.editText.length < ("Grocery List" : String).length ∧
    AutocompleteWidget.consume consumeW = (consumedW, true) :=
  ⟨by decide, (consume_spec consumeW).2.1 "Grocery List" rfl (by decide)⟩

/-! ## C9 -/

/-- The widget state of the C9 counterexample: typed text "a", no suggestion
(branch 2 of `get_text`). -/
def plainW : SearchBox := { editText := "a", editPos := 1, autocompleteText := none }

/-- C9 (counterexample): in branch 2 (typed text, no suggestion) the styled
range list is empty, so the sum of the styled ranges' lengths (0) differs from
the length of the returned text (1). -/
theorem C9_counterexample :
    ((AutocompleteWidget.get_text plainW).2.map Prod.snd).sum ≠
      (AutocompleteWidget.get_text plainW).1.length := by
  decide

/-- C9 (amended): the sum of the styled ranges' lengths equals the length of
the returned text in branches 1, 3 and 4 of `get_text`; in branch 2 (typed
text present, no truthy suggestion) the typed text is returned with an empty
styled-range list, so the sum is 0. -/
theorem get_text_spans_length (w : SearchBox) :
    ((AutocompleteWidget.get_text w).2.map Prod.snd).sum =
      (if w.editText ≠ "" ∧ optTruthy w.autocompleteText = false then 0
       else (AutocompleteWidget.get_text w).1.length) := by
  unfold AutocompleteWidget.get_text
  dsimp only
  by_cases hA : w.editText = "" ∧ optTruthy w.autocompleteText = false
  · rw [if_pos hA]
    rw [if_neg (fun hD => hD.1 hA.1)]
    simp only [List.map_cons, List.map_nil, List.sum_cons, List.sum_nil]
    omega
  · rw [if_neg hA]
    by_cases hB : optTruthy w.autocompleteText = false
    · rw [if_pos hB]
      have hne : w.editText ≠ "" := fun he2 => hA ⟨he2, hB⟩
      rw [if_pos ⟨hne, hB⟩]
      simp only [List.map_nil, List.sum_nil]
    · rw [if_neg hB]
      by_cases hC : w.editText ≠ "" ∧
          startswith (lower (w.autocompleteText.getD "")) (lower w.editText) = true
      · rw [if_pos hC]
        rw [if_neg (fun hD => hB hD.2)]
        simp only [List.map_cons, List.map_nil, List.sum_cons, List.sum_nil]
        have hlen : (⟨w.editText.data ++
              (w.autocompleteText.getD "").data.drop w.editText.length⟩ :
                String).length =
            w.editText.data.length +
              ((w.autocompleteText.getD "").data.drop w.editText.length).length :=
          List.length_append _ _
        have he : w.editText.length = w.editText.data.length := rfl
        rw [hlen, he]
        omega
      · rw [if_neg hC]
        rw [if_neg (fun hD => hB hD.2)]
        simp only [List.map_cons, List.map_nil, List.sum_cons, List.sum_nil]
        omega

/-! ## C8 -/

/-- A reachable frame whose DisplayList is empty: the result of filtering the
two-note base frame on "xyz", which matches no note (Scenario B). -/
def noMatchFrame : MainFrame :=
  ({ baseFrame with searchBox :=
      { editText := "xyz", editPos := 3, autocompleteText := none } }.filter
    "xyz").1

/-- C8: the claim says every recognized key event completes without a
component-local error, in particular navigation keys on an empty DisplayList.
The code instead evaluates `self.focus.note` with `focus = None`: pressing
up, page up, page down, or a first down while no note matches raises an
`AttributeError`. -/
theorem navigation_on_empty_list_crashes :
    noMatchFrame.listBox.listWalker = [] ∧
    noMatchFrame.keypress 5 Key.up = Except.error UIErr.attributeError ∧
    noMatchFrame.keypress 5 Key.down = Except.error UIErr.attributeError ∧
    noMatchFrame.keypress 5 Key.pageUp = Except.error UIErr.attributeError ∧
    noMatchFrame.keypress 5 Key.pageDown = Except.error UIErr.attributeError := by
  decide

/-! ## C3 -/

/-- The state of the C3 counterexample: "Grocery List" selected with its title
suggested and nothing typed (the state after filtering on "Gro" and erasing
the typed text is representative; here the typed text is already empty). -/
def c3Frame : MainFrame :=
  { baseFrame with
      searchBox := { editText := "", editPos := 0,
                     autocompleteText := some "Grocery List" },
      listBox := { cache := [("/n/g.txt", gNote), ("/n/b.txt", bNote)],
                   listWalker := [gNote, bNote], fakeFocus := true,
                   focusIdx := 0 },
      selectedNote := some gNote }

/-- C3 (counterexample): with "Grocery List" selected and the typed query
empty, backspace does not clear the selection and does not leave the typed
text alone: the suggestion is consumed into the typed text and one character
is deleted from it, leaving typed text "Grocery Lis" with "Grocery List"
still selected. -/
theorem C3_counterexample :
    (c3Frame.keypress 5 Key.backspace).map
        (fun r => (r.frame.selectedNote, r.frame.searchBox.editText,
                   r.frame.searchBox.autocompleteText)) =
      Except.ok (some gNote, "Grocery Lis", none) := by
  decide

/-- C3 (amended): on backspace with a note selected whose title is suggested
and strictly longer than the typed text, when the typed query is empty or the
title does not start with it (case-insensitive), the transition does not
clear the selection and does not merely dismiss the suggestion: it consumes
the suggestion into the typed text and then deletes one character, so the
typed text becomes the title minus its last character, the suggestion is
cleared, and the selected note is re-derived by the consume-triggered
re-filter on the full title (the final deletion re-filter runs with
re-focusing suppressed). -/
theorem backspace_consumes_then_deletes (st : MainFrame) (maxrow : Nat)
    (n : Note) (hsel : st.selectedNote = some n)
    (hauto : st.searchBox.autocompleteText = some n.title)
    (hlen : st.searchBox.editText.length < n.title.length)
    (hbranch : st.searchBox.editText = "" ∨
      startswith (lower n.title) (lower st.searchBox.editText) = false) :
    ∃ r : KeyResult, st.keypress maxrow Key.backspace = Except.ok r ∧
      r.frame.searchBox.editText = ⟨n.title.data.dropLast⟩ ∧
      r.frame.searchBox.autocompleteText = none ∧
      r.frame.selectedNote = autocompleteCandidate st.notes n.title ∧
      r.frame.suppressFocus = true ∧
      r.unhandled = none := by
  have htne : n.title ≠ "" := by
    intro he
    rw [he] at hlen
    have h0 : ("" : String).length = 0 := rfl
    omega
  obtain ⟨hc1, hc2, hc3, hc4, hc5, hc6, hc7, hc8, hc9⟩ := consumeSearchBox_char
    { st with
        selectedNote := some n,
        suppressFilter := false,
        suppressFocus := false } n.title hauto htne hlen rfl rfl
  dsimp only at hc1 hc2 hc3 hc4 hc5 hc6 hc7 hc8 hc9
  have hcond : (if st.searchBox.editText = "" then true
      else !startswith (lower n.title) (lower st.searchBox.editText)) = true := by
    rcases hbranch with he | hns
    · rw [if_pos he]
    · have hne : st.searchBox.editText ≠ "" := by
        intro he
        rw [he] at hns
        have htrue : startswith (lower n.title) (lower "") = true := by
          simp [startswith, lower]
        rw [hns] at htrue
        exact Bool.false_ne_true htrue
      rw [if_neg hne, hns]
      rfl
  unfold MainFrame.keypress
  dsimp only
  rw [hsel]
  dsimp only
  rw [if_pos hcond]
  unfold MainFrame.search_box_keypress
  dsimp only
  rw [hc3]
  have hpos : ¬ n.title.length = 0 := by
    have h0 : 0 ≤ st.searchBox.editText.length := Nat.zero_le _
    omega
  rw [if_neg hpos]
  dsimp only
  rw [hc2]
  have hnt : (⟨n.title.data.take (n.title.length - 1) ++
      n.title.data.drop n.title.length⟩ : String) = ⟨n.title.data.dropLast⟩ := by
    have hd : n.title.length = n.title.data.length := rfl
    rw [hd, List.drop_length, List.append_nil, ← List.dropLast_eq_take]
  rw [hnt]
  obtain ⟨g1, g2, g3, g4, g5, g6, g7⟩ := set_edit_text_char_suppressed_focus
    { (MainFrame.consumeSearchBox
        { st with
            selectedNote := some n,
            suppressFilter := false,
            suppressFocus := false }).1 with
              suppressFocus := true }
    ⟨n.title.data.dropLast⟩ rfl
  dsimp only at g1 g2 g3 g4 g5 g6 g7
  refine ⟨_, rfl, ?_, ?_, ?_, ?_, rfl⟩
  · exact g3
  · rw [g2, hc4]
  · rw [g1, hc5]
  · exact g6

/-- C3 (witness): the amended theorem applied to the concrete frame with
"Grocery List" selected and the typed text empty. -/
theorem backspace_consumes_then_deletes_witness :
    c3Frame.selectedNote = some gNote ∧
    c3Frame.searchBox.editText = "" ∧
    (∃ r : KeyResult, c3Frame.keypress 5 Key.backspace = Except.ok r ∧
      r.frame.searchBox.editText = ⟨gNote.title.data.dropLast⟩ ∧
      r.frame.searchBox.autocompleteText = none ∧
      r.frame.selectedNote = autocompleteCandidate c3Frame.notes gNote.title ∧
      r.frame.suppressFocus = true ∧
      r.unhandled = none) :=
  ⟨rfl, rfl,
   backspace_consumes_then_deletes c3Frame 5 gNote rfl rfl (by decide)
     (Or.inl rfl)⟩

/-! ## C4 -/

/-- The state of the C4 counterexample: Scenario C, note "Grocery List"
selected with typed text "Gro" (the state produced by filtering on "Gro"). -/
def c4Frame : MainFrame :=
  { baseFrame with
      searchBox := { editText := "Gro", editPos := 3,
                     autocompleteText := some "Grocery List" },
      listBox := { cache := [("/n/g.txt", gNote), ("/n/b.txt", bNote)],
                   listWalker := [gNote], fakeFocus := true, focusIdx := 0 },
      selectedNote := some gNote }

/-- C4 (counterexample): Scenario C. One character is deleted (typed text
becomes "Gr") but the selection does not remain: the handler clears the
selection (and the suggestion) before forwarding the deletion, and the
re-filter runs with re-focusing suppressed — even though "Grocery List" still
matches "Gr" and stays in the DisplayList. -/
theorem C4_counterexample :
    (c4Frame.keypress 5 Key.backspace).map
        (fun r => (r.frame.searchBox.editText, r.frame.selectedNote,
          r.frame.searchBox.autocompleteText,
          r.frame.listBox.listWalker.contains gNote)) =
      Except.ok ("Gr", none, none, true) := by
  decide

/-- C4 (amended): on backspace with a note selected, non-empty typed text the
selected note's title starts with (case-insensitive), and the cursor not at
position 0, one character is deleted at the cursor as ordinary editing — but
the selection does not remain: it is cleared (with the suggestion) before the
deletion, and the subsequent re-filter runs with re-focusing suppressed, so no
note is selected afterwards even when the re-filter keeps the note in the
DisplayList. -/
theorem backspace_deletes_and_clears_selection (st : MainFrame) (maxrow : Nat)
    (n : Note) (hsel : st.selectedNote = some n)
    (hne : st.searchBox.editText ≠ "")
    (hpre : startswith (lower n.title) (lower st.searchBox.editText) = true)
    (hpos : 0 < st.searchBox.editPos) :
    ∃ r : KeyResult, st.keypress maxrow Key.backspace = Except.ok r ∧
      r.frame.searchBox.editText =
        ⟨st.searchBox.editText.data.take (st.searchBox.editPos - 1) ++
          st.searchBox.editText.data.drop st.searchBox.editPos⟩ ∧
      r.frame.selectedNote = none ∧
      r.frame.searchBox.autocompleteText = none ∧
      r.frame.suppressFocus = true ∧
      r.unhandled = none := by
  unfold MainFrame.keypress
  dsimp only
  rw [hsel]
  dsimp only
  rw [if_neg hne, hpre]
  simp only [Bool.not_true]
  rw [if_neg Bool.false_ne_true]
  unfold MainFrame.set_selected_note
  dsimp only
  rw [if_neg Bool.false_ne_true]
  dsimp only
  unfold MainFrame.search_box_keypress
  dsimp only
  rw [if_neg (Nat.pos_iff_ne_zero.mp hpos)]
  dsimp only
  obtain ⟨g1, g2, g3, g4, g5, g6, g7⟩ := set_edit_text_char_suppressed_focus
    { notes := st.notes, notesDir := st.notesDir, extension := st.extension,
      now := st.now,
      searchBox := { editText := st.searchBox.editText,
                     editPos := st.searchBox.editPos,
                     autocompleteText := none },
      listBox := { cache := st.listBox.cache,
                   listWalker := st.listBox.listWalker,
                   fakeFocus := false, focusIdx := st.listBox.focusIdx },
      selectedNote := none, suppressFilter := false, suppressFocus := true,
      bodyPlaceholder := st.bodyPlaceholder }
    ⟨st.searchBox.editText.data.take (st.searchBox.editPos - 1) ++
      st.searchBox.editText.data.drop st.searchBox.editPos⟩ rfl
  dsimp only at g1 g2 g3 g4 g5 g6 g7
  refine ⟨_, rfl, ?_, ?_, ?_, ?_, rfl⟩
  · exact g3
  · exact g1
  · exact g2
  · exact g6

/-- C4 (witness): the amended theorem applied to Scenario C: "Grocery List"
selected, typed text "Gro", cursor at the end. -/
theorem backspace_deletes_and_clears_selection_witness :
    c4Frame.selectedNote = some gNote ∧
    c4Frame.searchBox.editText ≠ "" ∧
    startswith (lower gNote.title) (lower c4Frame.searchBox.editText) = true ∧
    (∃ r : KeyResult, c4Frame.keypress 5 Key.backspace = Except.ok r ∧
      r.frame.searchBox.editText =
        ⟨c4Frame.searchBox.editText.data.take (c4Frame.searchBox.editPos - 1) ++
          c4Frame.searchBox.editText.data.drop c4Frame.searchBox.editPos⟩ ∧
      r.frame.selectedNote = none ∧
      r.frame.searchBox.autocompleteText = none ∧
      r.frame.suppressFocus = true ∧
      r.unhandled = none) :=
  ⟨rfl, by decide, by decide,
   backspace_deletes_and_clears_selection c4Frame 5 gNote rfl (by decide)
     (by decide) (by decide)⟩

/-! ## C7 -/

/-- The state of the C7 counterexample: no selection, typed text exactly the
title of the existing note "Grocery List" (whose stored path is "/n/g.txt"). -/
def c7Frame : MainFrame :=
  { baseFrame with
      searchBox := { editText := "Grocery List", editPos := 12,
                     autocompleteText := none } }

/-- C7 (counterexample): on enter with no selection and typed text "Grocery
List", `create` fails with NoteAlreadyExists and the engine falls back — but
it opens the filename derived from the typed text ("Grocery List.txt"), not
the existing note's stored path ("/n/g.txt"). -/
theorem C7_counterexample :
    gNote ∈ c7Frame.notes ∧
    gNote.title = c7Frame.searchBox.editText ∧
    (c7Frame.keypress 5 Key.enter).map (fun r => r.effects) =
      Except.ok [Effect.openEditor "Grocery List.txt",
                 Effect.filterEval "Grocery List"] ∧
    ("Grocery List.txt" : String) ≠ gNote.abspath := by
  decide

/-- C7 (amended): on accept (enter) with no selected note and non-empty typed
text, the engine calls `create(typedText)`; on success the new note is created
and opened; on `NoteAlreadyExists` it falls back — without creating a
duplicate and without crashing — to opening the filename derived from the
typed text (`typedText + extension`, not necessarily the stored note's
absolute path); on `InvalidTitle` the event is a no-op apart from the
re-filter; in every case the filter is re-run on the typed text afterwards
with re-focusing suppressed (no selection change is applied). -/
theorem enter_create_fallback (st : MainFrame) (maxrow : Nat)
    (hsel : st.selectedNote = none)
    (hne : st.searchBox.editText ≠ "") :
    ∃ r : KeyResult, st.keypress maxrow Key.enter = Except.ok r ∧
      r.unhandled = none ∧
      r.frame.suppressFocus = true ∧
      (∀ b : Bool, Effect.selectionApplied b ∉ r.effects) ∧
      (∀ nn newNotes,
        add_new st.notes st.notesDir st.extension st.now
            st.searchBox.editText = CreateResult.ok nn newNotes →
        r.effects = [Effect.created nn, Effect.openEditor nn.abspath,
          Effect.filterEval st.searchBox.editText] ∧
        r.frame.notes = newNotes) ∧
      (add_new st.notes st.notesDir st.extension st.now
          st.searchBox.editText = CreateResult.alreadyExists →
        r.effects = [Effect.openEditor (st.searchBox.editText ++ st.extension),
          Effect.filterEval st.searchBox.editText] ∧
        r.frame.notes = st.notes) ∧
      (add_new st.notes st.notesDir st.extension st.now
          st.searchBox.editText = CreateResult.invalidTitle →
        r.effects = [Effect.filterEval st.searchBox.editText] ∧
        r.frame.notes = st.notes) := by
  unfold MainFrame.keypress
  dsimp only
  rw [hsel]
  dsimp only
  rw [if_pos hne]
  cases hadd : add_new st.notes st.notesDir st.extension st.now
      st.searchBox.editText with
  | ok nn newNotes =>
      dsimp only
      obtain ⟨g1, g2, g3, g4, g5, g6, g7, g8, g9⟩ := filter_char_suppressed_focus
        { notes := newNotes, notesDir := st.notesDir,
          extension := st.extension, now := st.now,
          searchBox := st.searchBox, listBox := st.listBox,
          selectedNote := none, suppressFilter := false,
          suppressFocus := true, bodyPlaceholder := st.bodyPlaceholder }
        st.searchBox.editText rfl
      dsimp only at g1 g2 g3 g4 g5 g6 g7 g8 g9
      rw [if_neg Bool.false_ne_true] at g6
      refine ⟨_, rfl, rfl, g5, ?_, ?_, ?_, ?_⟩
      · intro b hb
        dsimp only at hb
        rw [g6] at hb
        simp at hb
      · intro nn2 newNotes2 h
        injection h with h1 h2
        subst h1
        subst h2
        dsimp only
        rw [g6]
        exact ⟨rfl, g3⟩
      · intro h
        exact absurd h (by simp)
      · intro h
        exact absurd h (by simp)
  | alreadyExists =>
      dsimp only
      obtain ⟨g1, g2, g3, g4, g5, g6, g7, g8, g9⟩ := filter_char_suppressed_focus
        { notes := st.notes, notesDir := st.notesDir,
          extension := st.extension, now := st.now,
          searchBox := st.searchBox, listBox := st.listBox,
          selectedNote := none, suppressFilter := false,
          suppressFocus := true, bodyPlaceholder := st.bodyPlaceholder }
        st.searchBox.editText rfl
      dsimp only at g1 g2 g3 g4 g5 g6 g7 g8 g9
      rw [if_neg Bool.false_ne_true] at g6
      refine ⟨_, rfl, rfl, g5, ?_, ?_, ?_, ?_⟩
      · intro b hb
        dsimp only at hb
        rw [g6] at hb
        simp at hb
      · intro nn2 newNotes2 h
        exact absurd h (by simp)
      · intro h
        dsimp only
        rw [g6]
        exact ⟨rfl, g3⟩
      · intro h
        exact absurd h (by simp)
  | invalidTitle =>
      dsimp only
      obtain ⟨g1, g2, g3, g4, g5, g6, g7, g8, g9⟩ := filter_char_suppressed_focus
        { notes := st.notes, notesDir := st.notesDir,
          extension := st.extension, now := st.now,
          searchBox := st.searchBox, listBox := st.listBox,
          selectedNote := none, suppressFilter := false,
          suppressFocus := true, bodyPlaceholder := st.bodyPlaceholder }
        st.searchBox.editText rfl
      dsimp only at g1 g2 g3 g4 g5 g6 g7 g8 g9
      rw [if_neg Bool.false_ne_true] at g6
      refine ⟨_, rfl, rfl, g5, ?_, ?_, ?_, ?_⟩
      · intro b hb
        dsimp only at hb
        rw [g6] at hb
        simp at hb
      · intro nn2 newNotes2 h
        exact absurd h (by simp)
      · intro h
        exact absurd h (by simp)
      · intro h
        dsimp only
        rw [g6]
        exact ⟨rfl, g3⟩

/-- C7 (witness): the amended theorem applied at the concrete frame typing the
title of the existing note "Grocery List". -/
theorem enter_create_fallback_witness :
    c7Frame.selectedNote = none ∧
    c7Frame.searchBox.editText ≠ "" ∧
    (∃ r : KeyResult, c7Frame.keypress 5 Key.enter = Except.ok r ∧
      r.unhandled = none ∧
      r.frame.suppressFocus = true ∧
      (∀ b : Bool, Effect.selectionApplied b ∉ r.effects) ∧
      (∀ nn newNotes,
        add_new c7Frame.notes c7Frame.notesDir c7Frame.extension c7Frame.now
            c7Frame.searchBox.editText = CreateResult.ok nn newNotes →
        r.effects = [Effect.created nn, Effect.openEditor nn.abspath,
          Effect.filterEval c7Frame.searchBox.editText] ∧
        r.frame.notes = newNotes) ∧
      (add_new c7Frame.notes c7Frame.notesDir c7Frame.extension c7Frame.now
          c7Frame.searchBox.editText = CreateResult.alreadyExists →
        r.effects = [Effect.openEditor
            (c7Frame.searchBox.editText ++ c7Frame.extension),
          Effect.filterEval c7Frame.searchBox.editText] ∧
        r.frame.notes = c7Frame.notes) ∧
      (add_new c7Frame.notes c7Frame.notesDir c7Frame.extension c7Frame.now
          c7Frame.searchBox.editText = CreateResult.invalidTitle →
        r.effects = [Effect.filterEval c7Frame.searchBox.editText] ∧
        r.frame.notes = c7Frame.notes)) :=
  ⟨rfl, by decide, enter_create_fallback c7Frame 5 rfl (by decide)⟩

/-! ## The widget cache -/

theorem lookup_mem {c : List (String × Note)} {p : String} {w : Note}
    (h : c.lookup p = some w) : (p, w) ∈ c := by
  obtain ⟨l1, l2, hc, _⟩ := List.lookup_eq_some_iff.mp h
  rw [hc]
  exact List.mem_append.mpr (Or.inr (List.mem_cons_self _ _))

theorem lookup_append_some {c d : List (String × Note)} {p : String} {w : Note}
    (h : c.lookup p = some w) : (c ++ d).lookup p = some w := by
  rw [List.lookup_append, h]
  rfl

theorem filterStep_hit {c : List (String × Note)} {acc : List Note} {m : Note}
    {w : Note} (h : c.lookup m.abspath = some w) :
    filterStep (c, acc) m = (c, acc ++ [w]) := by
  unfold filterStep
  rw [h]

theorem filterStep_miss {c : List (String × Note)} {acc : List Note} {m : Note}
    (h : c.lookup m.abspath = none) :
    filterStep (c, acc) m = (c ++ [(m.abspath, m)], acc ++ [m]) := by
  unfold filterStep
  rw [h]

theorem foldl_filterStep_cache (ms : List Note) :
    ∀ (c : List (String × Note)) (acc : List Note),
      List.IsPrefix c (ms.foldl filterStep (c, acc)).1 := by
  induction ms with
  | nil => intro c acc; exact List.prefix_refl c
  | cons m ms ih =>
      intro c acc
      rw [List.foldl_cons]
      cases hl : c.lookup m.abspath with
      | some w =>
          rw [filterStep_hit hl]
          exact ih c (acc ++ [w])
      | none =>
          rw [filterStep_miss hl]
          exact (List.prefix_append c [(m.abspath, m)]).trans
            (ih (c ++ [(m.abspath, m)]) (acc ++ [m]))

theorem foldl_filterStep_lookup (ms : List Note) (c : List (String × Note))
    (acc : List Note) (p : String) (w : Note) (h : c.lookup p = some w) :
    (ms.foldl filterStep (c, acc)).1.lookup p = some w := by
  obtain ⟨d, hd⟩ := foldl_filterStep_cache ms c acc
  rw [← hd]
  exact lookup_append_some h

theorem foldl_filterStep_nodup (ms : List Note) :
    ∀ (c : List (String × Note)) (acc : List Note),
      (cacheKeys c).Nodup → (cacheKeys (ms.foldl filterStep (c, acc)).1).Nodup := by
  induction ms with
  | nil => intro c acc h; exact h
  | cons m ms ih =>
      intro c acc h
      rw [List.foldl_cons]
      cases hl : c.lookup m.abspath with
      | some w =>
          rw [filterStep_hit hl]
          exact ih c (acc ++ [w]) h
      | none =>
          rw [filterStep_miss hl]
          refine ih (c ++ [(m.abspath, m)]) (acc ++ [m]) ?_
          have hnot : m.abspath ∉ cacheKeys c := by
            intro hmem
            obtain ⟨e, he, hep⟩ := List.mem_map.mp hmem
            have hne := List.lookup_eq_none_iff.mp hl e he
            rw [hep] at hne
            simp at hne
          unfold cacheKeys
          rw [List.map_append]
          refine List.nodup_append.mpr ⟨h, List.nodup_singleton _, ?_⟩
          intro x hx
          simp only [List.map_cons, List.map_nil, List.mem_singleton]
          intro he
          rw [he] at hx
          exact hnot hx

theorem foldl_filterStep_covers (ms : List Note) :
    ∀ (c : List (String × Note)) (acc : List Note), ∀ m ∈ ms,
      ((ms.foldl filterStep (c, acc)).1.lookup m.abspath).isSome = true := by
  induction ms with
  | nil => intro c acc m hm; exact absurd hm (List.not_mem_nil m)
  | cons m0 ms ih =>
      intro c acc m hm
      rw [List.foldl_cons]
      rcases List.mem_cons.mp hm with he | ht
      · subst he
        cases hl : c.lookup m.abspath with
        | some w =>
            rw [filterStep_hit hl]
            rw [foldl_filterStep_lookup ms c (acc ++ [w]) m.abspath w hl]
            rfl
        | none =>
            rw [filterStep_miss hl]
            have hsingle : (c ++ [(m.abspath, m)]).lookup m.abspath = some m := by
              rw [List.lookup_append, hl]
              simp
            rw [foldl_filterStep_lookup ms _ _ _ _ hsingle]
            rfl
      · cases hl : c.lookup m0.abspath with
        | some w =>
            rw [filterStep_hit hl]
            exact ih c (acc ++ [w]) m ht
        | none =>
            rw [filterStep_miss hl]
            exact ih (c ++ [(m0.abspath, m0)]) (acc ++ [m0]) m ht

/-! ## C10 -/

/-- C10: across any single filter call and any sequence of filter calls, the
widget cache maps each path to at most one widget (distinct keys stay
distinct), a widget is created on a note's first appearance (after a filter
call every matching note's path is cached), cached widgets are reused and
never replaced (existing bindings are preserved), nothing is ever removed (the
old cache is a prefix of the new one), and the cache size is monotonically
non-decreasing. -/
theorem widget_cache_monotone (lb : ListBox) (matching : List Note)
    (mss : List (List Note)) :
    List.IsPrefix lb.cache (NoteFilterListBox.filter lb matching).cache ∧
    lb.cache.length ≤ (NoteFilterListBox.filter lb matching).cache.length ∧
    (∀ p w, lb.cache.lookup p = some w →
      (NoteFilterListBox.filter lb matching).cache.lookup p = some w) ∧
    ((cacheKeys lb.cache).Nodup →
      (cacheKeys (NoteFilterListBox.filter lb matching).cache).Nodup) ∧
    (∀ m ∈ matching,
      ((NoteFilterListBox.filter lb matching).cache.lookup m.abspath).isSome =
        true) ∧
    List.IsPrefix lb.cache (runFilters lb mss).cache ∧
    lb.cache.length ≤ (runFilters lb mss).cache.length ∧
    (∀ p w, lb.cache.lookup p = some w →
      (runFilters lb mss).cache.lookup p = some w) ∧
    ((cacheKeys lb.cache).Nodup →
      (cacheKeys (runFilters lb mss).cache).Nodup) := by
  have hsingle : ∀ (lb2 : ListBox) (ms : List Note),
      List.IsPrefix lb2.cache (NoteFilterListBox.filter lb2 ms).cache ∧
      (∀ p w, lb2.cache.lookup p = some w →
        (NoteFilterListBox.filter lb2 ms).cache.lookup p = some w) ∧
      ((cacheKeys lb2.cache).Nodup →
        (cacheKeys (NoteFilterListBox.filter lb2 ms).cache).Nodup) ∧
      (∀ m ∈ ms,
        ((NoteFilterListBox.filter lb2 ms).cache.lookup m.abspath).isSome =
          true) := by
    intro lb2 ms
    unfold NoteFilterListBox.filter
    dsimp only
    exact ⟨foldl_filterStep_cache ms lb2.cache [],
      fun p w h => foldl_filterStep_lookup ms lb2.cache [] p w h,
      foldl_filterStep_nodup ms lb2.cache [],
      fun m hm => foldl_filterStep_covers ms lb2.cache [] m hm⟩
  have hmulti : ∀ (mss2 : List (List Note)) (lb2 : ListBox),
      List.IsPrefix lb2.cache (runFilters lb2 mss2).cache ∧
      (∀ p w, lb2.cache.lookup p = some w →
        (runFilters lb2 mss2).cache.lookup p = some w) ∧
      ((cacheKeys lb2.cache).Nodup →
        (cacheKeys (runFilters lb2 mss2).cache).Nodup) := by
    intro mss2
    induction mss2 with
    | nil =>
        intro lb2
        exact ⟨List.prefix_refl _, fun p w h => h, fun h => h⟩
    | cons ms mss2 ih =>
        intro lb2
        obtain ⟨ha, hb, hc, _⟩ := hsingle lb2 ms
        obtain ⟨ia, ib, ic⟩ := ih (NoteFilterListBox.filter lb2 ms)
        refine ⟨ha.trans ia, fun p w h => ib p w (hb p w h), fun h => ic (hc h)⟩
  obtain ⟨s1, s2, s3, s4⟩ := hsingle lb matching
  obtain ⟨m1, m2, m3⟩ := hmulti mss lb
  exact ⟨s1, s1.length_le, s2, s3, s4, m1, m1.length_le, m2, m3⟩

/-- The list box of the C10 witness: one cached widget for "Grocery List". -/
def lbW : ListBox :=
  { cache := [("/n/g.txt", gNote)], listWalker := [gNote], fakeFocus := false,
    focusIdx := 0 }

/-- C10 (witness): the cache-lifetime invariants applied to a concrete cache
with one entry, a filter call matching both notes, and a two-call sequence;
the distinct-keys and binding-preservation implications are discharged at the
concrete cache. -/
theorem widget_cache_monotone_witness :
    (cacheKeys lbW.cache).Nodup ∧
    lbW.cache.lookup "/n/g.txt" = some gNote ∧
    (cacheKeys (NoteFilterListBox.filter lbW [gNote, bNote]).cache).Nodup ∧
    (NoteFilterListBox.filter lbW [gNote, bNote]).cache.lookup "/n/g.txt" =
      some gNote ∧
    List.IsPrefix lbW.cache (runFilters lbW [[bNote], [gNote]]).cache ∧
    lbW.cache.length ≤ (runFilters lbW [[bNote], [gNote]]).cache.length := by
  obtain ⟨s1, s2, s3, s4, s5, m1, m2, m3, m4⟩ :=
    widget_cache_monotone lbW [gNote, bNote] [[bNote], [gNote]]
  exact ⟨by decide, by decide, s4 (by decide), s3 "/n/g.txt" gNote (by decide),
    m1, m2⟩

/-! ## C5 -/

/-- The widget cache agrees with the notebook: every cached widget is keyed by
its note's path and holds the (unique) notebook note with that path.  This is
an invariant of all reachable states: widgets are only ever built from
notebook notes, and note paths are unique (spec: the path is the note's
identity). -/
def cacheConsistent (cache : List (String × Note)) (notes : List Note) : Prop :=
  ∀ p n, (p, n) ∈ cache → n.abspath = p ∧ ∀ m ∈ notes, m.abspath = p → m = n

/-- Distinct notes have distinct paths (spec: identity = absolute path). -/
def pathInjective (notes : List Note) : Prop :=
  ∀ a ∈ notes, ∀ b ∈ notes, a.abspath = b.abspath → a = b

theorem foldl_filterStep_walker (ms : List Note) :
    ∀ (c : List (String × Note)) (acc : List Note) (notes : List Note),
      pathInjective notes → cacheConsistent c notes → (∀ m ∈ ms, m ∈ notes) →
      (ms.foldl filterStep (c, acc)).2 = acc ++ ms := by
  induction ms with
  | nil =>
      intro c acc notes _ _ _
      rw [List.foldl_nil, List.append_nil]
  | cons m ms ih =>
      intro c acc notes hpi hcc hms
      have hm : m ∈ notes := hms m (List.mem_cons_self m ms)
      rw [List.foldl_cons]
      cases hl : c.lookup m.abspath with
      | some w =>
          have hmemc := lookup_mem hl
          have hwm : w = m := by
            obtain ⟨_, huniq⟩ := hcc m.abspath w hmemc
            exact (huniq m hm rfl).symm
          rw [filterStep_hit hl, hwm,
            ih c (acc ++ [m]) notes hpi hcc (fun x hx => hms x (List.mem_cons_of_mem m hx)),
            List.append_assoc, List.singleton_append]
      | none =>
          have hcc2 : cacheConsistent (c ++ [(m.abspath, m)]) notes := by
            intro p n hpn
            rcases List.mem_append.mp hpn with hin | hin
            · exact hcc p n hin
            · rw [List.mem_singleton] at hin
              injection hin with h1 h2
              subst h1
              rw [h2]
              exact ⟨rfl, fun m2 hm2 hp2 => hpi m2 hm2 m hm hp2⟩
          rw [filterStep_miss hl,
            ih (c ++ [(m.abspath, m)]) (acc ++ [m]) notes hpi hcc2
              (fun x hx => hms x (List.mem_cons_of_mem m hx)),
            List.append_assoc, List.singleton_append]

theorem focus_note_walker (lb : ListBox) (n : Note) :
    (NoteFilterListBox.focus_note lb n).listWalker = lb.listWalker := by
  unfold NoteFilterListBox.focus_note
  split
  · rfl
  · rfl

theorem set_selected_note_walker (st : MainFrame) (x : Option Note) :
    (st.set_selected_note x).1.listBox.listWalker = st.listBox.listWalker := by
  unfold MainFrame.set_selected_note
  by_cases h : st.suppressFocus = true
  · rw [if_pos h]
  · rw [if_neg h]
    cases x with
    | some n =>
        dsimp only
        rw [focus_note_walker]
    | none => rfl

/-- C5: for every filter pass (in a state whose cache is consistent with the
notebook, which holds in all reachable states since note paths are unique),
the DisplayList equals the matching notes sorted by modification time
descending; adjacent rows satisfy `modifiedTime[i] >= modifiedTime[i+1]`; and
ties are broken by the original listing order — the notes of any given
modification time appear in exactly the order the search listing produced
them (stable sort). -/
theorem display_list_sorted (st : MainFrame) (q : String)
    (hf : st.suppressFilter = false)
    (hpi : pathInjective st.notes)
    (hcc : cacheConsistent st.listBox.cache st.notes) :
    (st.filter q).1.listBox.listWalker =
      sortByMtimeDesc (searchNotes st.notes q) ∧
    (∀ i a b, (st.filter q).1.listBox.listWalker[i]? = some a →
      (st.filter q).1.listBox.listWalker[i + 1]? = some b →
      b.mtime ≤ a.mtime) ∧
    (∀ t : Nat, (st.filter q).1.listBox.listWalker.filter
        (fun x => x.mtime == t) =
      (searchNotes st.notes q).filter (fun x => x.mtime == t)) := by
  have hmem : ∀ m ∈ sortByMtimeDesc (searchNotes st.notes q), m ∈ st.notes :=
    fun m hm =>
      searchNotes_subset st.notes q m ((mem_sortByMtimeDesc _ m).mp hm)
  have hwalker : (st.filter q).1.listBox.listWalker =
      sortByMtimeDesc (searchNotes st.notes q) := by
    unfold MainFrame.filter
    rw [if_neg (by rw [hf]; exact Bool.false_ne_true)]
    dsimp only
    cases hM : autocompletableMatches st.notes q with
    | nil =>
        dsimp only
        rw [set_selected_note_walker]
        unfold NoteFilterListBox.filter
        dsimp only
        rw [foldl_filterStep_walker _ st.listBox.cache [] st.notes hpi hcc hmem,
          List.nil_append]
    | cons n t =>
        dsimp only
        rw [set_selected_note_walker]
        unfold NoteFilterListBox.filter
        dsimp only
        rw [foldl_filterStep_walker _ st.listBox.cache [] st.notes hpi hcc hmem,
          List.nil_append]
  refine ⟨hwalker, ?_, ?_⟩
  · intro i a b ha hb
    rw [hwalker] at ha hb
    obtain ⟨hi, hia⟩ := List.getElem?_eq_some_iff.mp ha
    obtain ⟨hj, hjb⟩ := List.getElem?_eq_some_iff.mp hb
    have hpair := List.pairwise_iff_getElem.mp
      (sorted_sortByMtimeDesc (searchNotes st.notes q)) i (i + 1) hi hj
      (Nat.lt_succ_self i)
    rw [hia, hjb] at hpair
    exact hpair
  · intro t
    rw [hwalker]
    exact filter_mtime_sortByMtimeDesc t (searchNotes st.notes q)

/-- C5 (witness): filtering the base frame (empty cache, distinct paths) on
"Gro": the DisplayList is ["Grocery List" (t=10), "Groceries Budget" (t=5)],
adjacent modification times are non-increasing, and the tie-breaking filter
equation holds for every timestamp. -/
theorem display_list_sorted_witness :
    baseFrame.suppressFilter = false ∧
    (baseFrame.filter "Gro").1.listBox.listWalker = [gNote, bNote] ∧
    (∀ i a b, (baseFrame.filter "Gro").1.listBox.listWalker[i]? = some a →
      (baseFrame.filter "Gro").1.listBox.listWalker[i + 1]? = some b →
      b.mtime ≤ a.mtime) ∧
    (∀ t : Nat, (baseFrame.filter "Gro").1.listBox.listWalker.filter
        (fun x => x.mtime == t) =
      (searchNotes baseFrame.notes "Gro").filter (fun x => x.mtime == t)) := by
  obtain ⟨h1, h2, h3⟩ := display_list_sorted baseFrame "Gro" rfl
    (by unfold pathInjective; decide)
    (by intro p n hpn; exact absurd hpn (List.not_mem_nil _))
  refine ⟨rfl, ?_, h2, h3⟩
  rw [h1]
  decide
